import Mathlib

/-!
Shallow embedding of the ShoreSquad core (`src/js/app.js`): the weather
normalization path of `fetchNEAWeather`, the condition classifiers
(`getWeatherEmoji`, `extractRainInfo`, `shortenForecast`), and the event
catalog operations (`loadEvents`, `filterEvents`, `getFilteredEvents`,
`joinEvent`, `loadMoreEvents`).  JavaScript strings are Lean `String`s,
JS numbers on the integer-valued paths are `Int`/`Nat`, absent object
fields are `Option`, and the JS falsy-default idiom `x || d` is modelled
explicitly (`0`, the empty string and a missing field are falsy).
-/

namespace ShoreSquad

/-- `startsWithChars sub l` is true iff the char list `l` begins with `sub`.
Building block for the model of JS `String.prototype.includes`. -/
def startsWithChars : List Char → List Char → Bool
  | [], _ => true
  | _ :: _, [] => false
  | a :: as, b :: bs => a == b && startsWithChars as bs

/-- `hasSubChars sub l` is true iff `sub` occurs contiguously inside `l`. -/
def hasSubChars (sub : List Char) : List Char → Bool
  | [] => startsWithChars sub []
  | c :: rest => startsWithChars sub (c :: rest) || hasSubChars sub rest

/-- Model of JS `s.includes(pat)`: contiguous substring test. -/
def jsIncludes (s pat : String) : Bool :=
  hasSubChars pat.data s.data

/-- Model of JS `s.toLowerCase()` on the ASCII range (the NEA condition
texts and all rule keywords are ASCII). -/
def jsToLower (s : String) : String :=
  ⟨s.data.map Char.toLower⟩

/-- `getWeatherEmoji` (app.js lines 207-219): ordered first-match-wins
substring rules on the lowercased forecast text. -/
def getWeatherEmoji (forecast : String) : String :=
  let text := jsToLower forecast
  if jsIncludes text "thunder" || jsIncludes text "storm" then "⛈️"
  else if jsIncludes text "heavy rain" || jsIncludes text "heavy showers" then "🌧️"
  else if jsIncludes text "rain" || jsIncludes text "showers" then "🌦️"
  else if jsIncludes text "cloudy" && jsIncludes text "partly" then "⛅"
  else if jsIncludes text "cloudy" || jsIncludes text "overcast" then "☁️"
  else if jsIncludes text "fair" || jsIncludes text "sunny" then "☀️"
  else if jsIncludes text "hazy" || jsIncludes text "haze" then "🌫️"
  else "🌤️"

/-- `extractRainInfo` (app.js lines 224-241): rain summary from the
lowercased forecast text, first match wins. -/
def extractRainInfo (forecast : String) : String :=
  let text := jsToLower forecast
  if jsIncludes text "thunder" || jsIncludes text "storm" then "Thunderstorms expected"
  else if jsIncludes text "heavy rain" || jsIncludes text "heavy showers" then "Heavy rain likely"
  else if jsIncludes text "showers" || jsIncludes text "rain" then "Showers possible"
  else if jsIncludes text "cloudy" || jsIncludes text "overcast" then "May see some clouds"
  else "Good beach weather!"

/-- `shortenForecast` (app.js lines 401-414): short display label.  A falsy
(empty) input yields "Fair"; otherwise ordered substring rules on the
lowercased text; with no match, the first two words of the original text. -/
def shortenForecast (forecast : String) : String :=
  if forecast = "" then "Fair"
  else
    let text := jsToLower forecast
    if jsIncludes text "thundery" then "Thundery"
    else if jsIncludes text "heavy" then "Heavy Rain"
    else if jsIncludes text "showers" then "Showers"
    else if jsIncludes text "cloudy" then "Cloudy"
    else if jsIncludes text "rain" then "Rainy"
    else if jsIncludes text "fair" then "Fair"
    else String.intercalate " " ((forecast.splitOn " ").take 2)

/-- JS `v || d` on an integer-valued field: a missing field or a reported
`0` (both falsy) yield the default `d`. -/
def jsOrInt (v : Option Int) (d : Int) : Int :=
  match v with
  | none => d
  | some x => if x = 0 then d else x

/-- JS `v || d` on a string-valued field: a missing field or the empty
string (both falsy) yield the default `d`. -/
def jsOrString (v : Option String) (d : String) : String :=
  match v with
  | none => d
  | some x => if x = "" then d else x

/-- One entry of the raw payload's `periods` array: `time.start` and the
regional texts read by `updateForecastDisplay`.  Carried through the
normalization unchanged (`periods: periods` in the returned record). -/
structure RawPeriod where
  start : Option String
  east : Option String
  central : Option String
deriving DecidableEq

/-- A raw low/high pair as reported by the provider (either bound may be
absent). -/
structure RawRange where
  low : Option Int
  high : Option Int
deriving DecidableEq

/-- The raw `general` object of the first payload item. -/
structure RawGeneral where
  forecast : Option String
  temperature : Option RawRange
  relative_humidity : Option RawRange
deriving DecidableEq

/-- One entry of the raw payload's `items` array. -/
structure RawItem where
  general : Option RawGeneral
  periods : List RawPeriod
  timestamp : Option String
deriving DecidableEq

def emptyRawRange : RawRange := ⟨none, none⟩

def emptyRawGeneral : RawGeneral := ⟨none, none, none⟩

/-- The normalized weather record returned by `fetchNEAWeather`
(app.js lines 184-194). -/
structure Weather where
  location : String
  temperature : Int
  tempRange : String
  condition : String
  rain : String
  emoji : String
  humidity : String
  periods : List RawPeriod
  timestamp : Option String
deriving DecidableEq

/-- The normalization core of `fetchNEAWeather` (app.js lines 162-194),
after the HTTP layer: an empty `items` array throws ("No weather data
available"), modelled as `none`; otherwise the first item is normalized
with falsy defaults 24/32 (temperature), 60/95 (humidity) and
`"No forecast available"` (text).  `Math.round((tempLow+tempHigh)/2)` on
integers rounds half toward positive infinity, i.e. `⌊(lo+hi+1)/2⌋`,
which is `Int.fdiv (lo + hi + 1) 2`. -/
def normalizeWeather : List RawItem → Option Weather
  | [] => none
  | item :: _ =>
    let generalForecast := item.general.getD emptyRawGeneral
    let periods := item.periods
    let forecast := jsOrString generalForecast.forecast "No forecast available"
    let temperature := generalForecast.temperature.getD emptyRawRange
    let humidity := generalForecast.relative_humidity.getD emptyRawRange
    let emoji := getWeatherEmoji forecast
    let tempLow := jsOrInt temperature.low 24
    let tempHigh := jsOrInt temperature.high 32
    let avgTemp := Int.fdiv (tempLow + tempHigh + 1) 2
    some
      { location := "Singapore Beaches"
        temperature := avgTemp
        tempRange := s!"{tempLow}-{tempHigh}°C"
        condition := forecast
        rain := extractRainInfo forecast
        emoji := emoji
        humidity := s!"{jsOrInt humidity.low 60}-{jsOrInt humidity.high 95}%"
        periods := periods
        timestamp := item.timestamp }

/-- The temperature bounds `(tempLow, tempHigh)` computed by
`fetchNEAWeather` (app.js lines 180-181), exposed as a pair so that
range-level properties can be stated; `none` on an empty payload. -/
def tempRangePair : List RawItem → Option (Int × Int)
  | [] => none
  | item :: _ =>
    let g := item.general.getD emptyRawGeneral
    let t := g.temperature.getD emptyRawRange
    some (jsOrInt t.low 24, jsOrInt t.high 32)

/-- The humidity bounds computed by `fetchNEAWeather` (app.js line 191),
exposed as a pair. -/
def humRangePair : List RawItem → Option (Int × Int)
  | [] => none
  | item :: _ =>
    let g := item.general.getD emptyRawGeneral
    let h := g.relative_humidity.getD emptyRawRange
    some (jsOrInt h.low 60, jsOrInt h.high 95)

/-- A cleanup event record (shape of the mock events in `loadEvents`,
app.js lines 449-478).  A missing `featured` field is the falsy
`undefined`, modelled as `false`. -/
structure Event where
  id : Int
  title : String
  date : String
  location : String
  participants : Nat
  weather : String
  category : String
  featured : Bool
deriving DecidableEq

/-- The slice of `this.state` the catalog operations touch:
`state.events` and `state.filters.active`. -/
structure AppState where
  events : List Event
  activeFilter : String
deriving DecidableEq

/-- The constructor's initial state (app.js lines 18-26): no events,
filter `"all"`. -/
def initState : AppState := { events := [], activeFilter := "all" }

def pasirRis : Event :=
  { id := 1, title := "Pasir Ris Beach Cleanup", date := "Dec 15"
    location := "Pasir Ris Beach, Singapore", participants := 18
    weather := "⛅ 27°C", category := "weekend", featured := true }

def eastCoast : Event :=
  { id := 2, title := "East Coast Park Morning Clean", date := "Dec 18"
    location := "East Coast Park, Singapore", participants := 8
    weather := "🌦️ 25°C", category := "today", featured := false }

def changi : Event :=
  { id := 3, title := "Changi Beach Environmental Action", date := "Dec 20"
    location := "Changi Beach, Singapore", participants := 15
    weather := "☀️ 28°C", category := "nearby", featured := false }

/-- The mock initial events of `loadEvents` (app.js lines 449-478). -/
def mockEvents : List Event := [pasirRis, eastCoast, changi]

/-- `loadEvents` (app.js lines 446-486): replaces `state.events` with the
mock initial list; the filter is untouched. -/
def loadEvents (s : AppState) : AppState :=
  { s with events := mockEvents }

/-- `filterEvents` (app.js lines 569-587): sets `state.filters.active`,
then derives the rendered list from the (unchanged) stored events —
everything when the filter is `"all"`, otherwise the events whose
`category` equals the filter, in stored order. -/
def filterEvents (s : AppState) (filter : String) : AppState × List Event :=
  let s1 := { s with activeFilter := filter }
  let filteredEvents :=
    if filter ≠ "all" then s.events.filter (fun e => e.category == filter)
    else s.events
  (s1, filteredEvents)

/-- `getFilteredEvents` (app.js lines 607-612): recomputes the filtered
view from the current `(events, activeFilter)`. -/
def getFilteredEvents (s : AppState) : List Event :=
  if s.activeFilter = "all" then s.events
  else s.events.filter (fun e => e.category == s.activeFilter)

/-- Increment the `participants` of the first event with the given id
(the JS `find` returns the first matching object and `joinEvent` mutates
it in place). -/
def incFirst : List Event → Int → List Event
  | [], _ => []
  | e :: es, i =>
    if e.id == i then { e with participants := e.participants + 1 } :: es
    else e :: incFirst es i

/-- `joinEvent` (app.js lines 592-602): look up the first event with the
given id; if absent, return with nothing changed (the silent no-op the
spec calls `NotFoundError`); otherwise increment its `participants` by 1.
The second component is the updated event (`none` on the not-found path). -/
def joinEvent (s : AppState) (eventId : Int) : AppState × Option Event :=
  match s.events.find? (fun e => e.id == eventId) with
  | none => (s, none)
  | some e =>
    ({ s with events := incFirst s.events eventId },
     some { e with participants := e.participants + 1 })

def marinaBay : Event :=
  { id := 4, title := "Marina Bay Sunrise Cleanup", date := "Dec 22"
    location := "Marina Bay, Singapore", participants := 6
    weather := "🌤️ 26°C", category := "weekend", featured := false }

def pulauUbin : Event :=
  { id := 5, title := "Pulau Ubin Adventure Clean", date := "Dec 25"
    location := "Pulau Ubin, Singapore", participants := 20
    weather := "⛈️ 24°C", category := "nearby", featured := false }

/-- The mock page of additional events appended by `loadMoreEvents`
(app.js lines 624-643); the same two records on every call. -/
def newEvents : List Event := [marinaBay, pulauUbin]

/-- The append step `this.state.events.push(...newEvents)` of
`loadMoreEvents` (app.js line 645), over an arbitrary page of events. -/
def appendEvents (s : AppState) (more : List Event) : AppState :=
  { s with events := s.events ++ more }

/-- `loadMoreEvents` (app.js lines 617-650): appends the mock page to the
stored events; the filter is untouched and the view is recomputed by
`getFilteredEvents` afterwards. -/
def loadMoreEvents (s : AppState) : AppState :=
  appendEvents s newEvents

theorem startsWithChars_append_left (a b l : List Char)
    (h : startsWithChars (a ++ b) l = true) : startsWithChars a l = true := by
  induction a generalizing l with
  | nil => rfl
  | cons c as ih =>
    cases l with
    | nil => simp [startsWithChars] at h
    | cons d ds =>
      simp only [List.cons_append, startsWithChars, Bool.and_eq_true] at h ⊢
      exact ⟨h.1, ih ds h.2⟩

theorem hasSubChars_append_left (a b l : List Char)
    (h : hasSubChars (a ++ b) l = true) : hasSubChars a l = true := by
  induction l with
  | nil => exact startsWithChars_append_left a b [] h
  | cons c rest ih =>
    rw [hasSubChars] at h ⊢
    simp only [Bool.or_eq_true] at h ⊢
    rcases h with h | h
    · exact Or.inl (startsWithChars_append_left a b _ h)
    · exact Or.inr (ih h)

theorem hasSubChars_of_startsWith_append (a b l : List Char)
    (h : startsWithChars (a ++ b) l = true) : hasSubChars b l = true := by
  induction a generalizing l with
  | nil =>
    cases l with
    | nil => exact h
    | cons c rest =>
      rw [hasSubChars]
      simp only [Bool.or_eq_true]
      exact Or.inl h
  | cons c as ih =>
    cases l with
    | nil => simp [startsWithChars] at h
    | cons d ds =>
      simp only [List.cons_append, startsWithChars, Bool.and_eq_true] at h
      rw [hasSubChars]
      simp only [Bool.or_eq_true]
      exact Or.inr (ih ds h.2)

theorem hasSubChars_append_right (a b l : List Char)
    (h : hasSubChars (a ++ b) l = true) : hasSubChars b l = true := by
  induction l with
  | nil => exact hasSubChars_of_startsWith_append a b [] h
  | cons c rest ih =>
    rw [hasSubChars] at h
    simp only [Bool.or_eq_true] at h
    rcases h with h | h
    · exact hasSubChars_of_startsWith_append a b _ h
    · rw [hasSubChars]
      simp only [Bool.or_eq_true]
      exact Or.inr (ih h)

/-- If `t` does not contain `p` then it does not contain any extension
`q = p ++ r` of `p` either (e.g. no "thunder" rules out "thundery"). -/
theorem jsIncludes_false_of_left (t p q r : String)
    (e : q.data = p.data ++ r.data) (h : jsIncludes t p = false) :
    jsIncludes t q = false := by
  cases hc : jsIncludes t q with
  | false => rfl
  | true =>
    unfold jsIncludes at hc
    rw [e] at hc
    have := hasSubChars_append_left p.data r.data t.data hc
    simp [jsIncludes, this] at h

/-- If `t` does not contain `p` then it does not contain any extension
`q = r ++ p` of `p` either (e.g. no "rain" rules out "heavy rain"). -/
theorem jsIncludes_false_of_right (t p q r : String)
    (e : q.data = r.data ++ p.data) (h : jsIncludes t p = false) :
    jsIncludes t q = false := by
  cases hc : jsIncludes t q with
  | false => rfl
  | true =>
    unfold jsIncludes at hc
    rw [e] at hc
    have := hasSubChars_append_right r.data p.data t.data hc
    simp [jsIncludes, this] at h

/-- C3 counterexample: "Partly Cloudy Showers" contains both "cloudy" and
"partly" (case-insensitive), yet classification yields the light-rain
icon, not the partly-cloudy icon, because the rain/showers rule fires
first. -/
theorem C3_counterexample :
    jsIncludes (jsToLower "Partly Cloudy Showers") "cloudy" = true ∧
    jsIncludes (jsToLower "Partly Cloudy Showers") "partly" = true ∧
    getWeatherEmoji "Partly Cloudy Showers" = "🌦️" ∧
    getWeatherEmoji "Partly Cloudy Showers" ≠ "⛅" := by
  refine ⟨by decide, by decide, by decide, by decide⟩

/-- C3 (amended): for every condition text that contains both "cloudy"
and "partly" (case-insensitive, either order) and matches no earlier rule
(no "thunder", "storm", "rain" or "showers"; the heavy-rain rule is then
vacuous), classification yields the partly-cloudy icon. -/
theorem C3_amended (s : String)
    (hcl : jsIncludes (jsToLower s) "cloudy" = true)
    (hpa : jsIncludes (jsToLower s) "partly" = true)
    (hth : jsIncludes (jsToLower s) "thunder" = false)
    (hst : jsIncludes (jsToLower s) "storm" = false)
    (hra : jsIncludes (jsToLower s) "rain" = false)
    (hsh : jsIncludes (jsToLower s) "showers" = false) :
    getWeatherEmoji s = "⛅" := by
  have hhr : jsIncludes (jsToLower s) "heavy rain" = false :=
    jsIncludes_false_of_right _ "rain" _ "heavy " (by decide) hra
  have hhs : jsIncludes (jsToLower s) "heavy showers" = false :=
    jsIncludes_false_of_right _ "showers" _ "heavy " (by decide) hsh
  simp [getWeatherEmoji, hcl, hpa, hth, hst, hra, hsh, hhr, hhs]

/-- C3 witness: the amended theorem applied to "Partly Cloudy (Day)". -/
theorem C3_witness :
    jsIncludes (jsToLower "Partly Cloudy (Day)") "cloudy" = true ∧
    jsIncludes (jsToLower "Partly Cloudy (Day)") "partly" = true ∧
    jsIncludes (jsToLower "Partly Cloudy (Day)") "thunder" = false ∧
    jsIncludes (jsToLower "Partly Cloudy (Day)") "storm" = false ∧
    jsIncludes (jsToLower "Partly Cloudy (Day)") "rain" = false ∧
    jsIncludes (jsToLower "Partly Cloudy (Day)") "showers" = false ∧
    getWeatherEmoji "Partly Cloudy (Day)" = "⛅" :=
  ⟨by decide, by decide, by decide, by decide, by decide, by decide,
    C3_amended "Partly Cloudy (Day)" (by decide) (by decide) (by decide)
      (by decide) (by decide) (by decide)⟩

/-- C4 counterexample: "Light Rain" contains "rain" and matches no
earlier rule, and it does get the light-rain icon and "Showers possible"
summary — but its short label is "Rainy", not "Showers" as the claim
states. -/
theorem C4_counterexample :
    jsIncludes (jsToLower "Light Rain") "rain" = true ∧
    jsIncludes (jsToLower "Light Rain") "thunder" = false ∧
    jsIncludes (jsToLower "Light Rain") "storm" = false ∧
    jsIncludes (jsToLower "Light Rain") "heavy rain" = false ∧
    jsIncludes (jsToLower "Light Rain") "heavy showers" = false ∧
    shortenForecast "Light Rain" = "Rainy" ∧
    shortenForecast "Light Rain" ≠ "Showers" := by
  refine ⟨by decide, by decide, by decide, by decide, by decide, by decide, by decide⟩

/-- C4 (amended): for every condition text containing "rain" or "showers"
(case-insensitive) and matching no earlier rule (no thunder/storm, no
heavy rain/heavy showers), the icon is the light-rain icon and the rain
summary is "Showers possible".  The short label is "Showers" only when
the text contains "showers" and not "heavy" (`shortenForecast` has its
own rule order: thundery, heavy, showers, cloudy, rain, fair); a text
containing "rain" but not "showers" gets "Cloudy" when it contains
"cloudy" and "Rainy" otherwise. -/
theorem C4_amended (s : String)
    (hrs : (jsIncludes (jsToLower s) "rain" || jsIncludes (jsToLower s) "showers") = true)
    (hth : jsIncludes (jsToLower s) "thunder" = false)
    (hst : jsIncludes (jsToLower s) "storm" = false)
    (hhr : jsIncludes (jsToLower s) "heavy rain" = false)
    (hhs : jsIncludes (jsToLower s) "heavy showers" = false) :
    getWeatherEmoji s = "🌦️" ∧
    extractRainInfo s = "Showers possible" ∧
    (jsIncludes (jsToLower s) "showers" = true →
      jsIncludes (jsToLower s) "heavy" = false → shortenForecast s = "Showers") ∧
    (jsIncludes (jsToLower s) "showers" = false →
      jsIncludes (jsToLower s) "heavy" = false →
      jsIncludes (jsToLower s) "cloudy" = true → shortenForecast s = "Cloudy") ∧
    (jsIncludes (jsToLower s) "showers" = false →
      jsIncludes (jsToLower s) "heavy" = false →
      jsIncludes (jsToLower s) "cloudy" = false → shortenForecast s = "Rainy") := by
  have hz : s ≠ "" := by
    intro he
    rw [he] at hrs
    exact absurd hrs (by decide)
  have hty : jsIncludes (jsToLower s) "thundery" = false :=
    jsIncludes_false_of_left _ "thunder" _ "y" (by decide) hth
  have hsr : (jsIncludes (jsToLower s) "showers" || jsIncludes (jsToLower s) "rain") = true := by
    rw [Bool.or_comm] at hrs
    exact hrs
  refine ⟨?_, ?_, ?_, ?_, ?_⟩
  · simp [getWeatherEmoji, hth, hst, hhr, hhs, hrs]
  · simp [extractRainInfo, hth, hst, hhr, hhs, hsr]
  · intro hs hh
    simp [shortenForecast, hz, hty, hh, hs]
  · intro hs hh hcl
    simp [shortenForecast, hz, hty, hh, hs, hcl]
  · intro hs hh hcl
    have hra : jsIncludes (jsToLower s) "rain" = true := by
      have hor := hrs
      simp only [Bool.or_eq_true] at hor
      rcases hor with h | h
      · exact h
      · rw [hs] at h
        exact absurd h (by decide)
    simp [shortenForecast, hz, hty, hh, hs, hcl, hra]

/-- C4 witness: the amended theorem applied to "Passing Showers". -/
theorem C4_witness :
    (jsIncludes (jsToLower "Passing Showers") "rain" ||
      jsIncludes (jsToLower "Passing Showers") "showers") = true ∧
    jsIncludes (jsToLower "Passing Showers") "thunder" = false ∧
    jsIncludes (jsToLower "Passing Showers") "storm" = false ∧
    jsIncludes (jsToLower "Passing Showers") "heavy rain" = false ∧
    jsIncludes (jsToLower "Passing Showers") "heavy showers" = false ∧
    getWeatherEmoji "Passing Showers" = "🌦️" ∧
    extractRainInfo "Passing Showers" = "Showers possible" ∧
    shortenForecast "Passing Showers" = "Showers" :=
  ⟨by decide, by decide, by decide, by decide, by decide,
    (C4_amended "Passing Showers" (by decide) (by decide) (by decide) (by decide) (by decide)).1,
    (C4_amended "Passing Showers" (by decide) (by decide) (by decide) (by decide) (by decide)).2.1,
    (C4_amended "Passing Showers" (by decide) (by decide) (by decide) (by decide)
      (by decide)).2.2.1 (by decide) (by decide)⟩

/-- C9: a first payload entry with no `temperature` field is normalized to
the default bounds (24, 32) with midpoint temperature 28; and in general
the reported temperature is `Math.round((low+high)/2)`, i.e.
`⌊(low+high+1)/2⌋`, of the normalized bounds. -/
theorem C9_temperature_defaults (g : RawGeneral) (ps : List RawPeriod)
    (ts : Option String) (rest : List RawItem)
    (hg : g.temperature = none) :
    tempRangePair (⟨some g, ps, ts⟩ :: rest) = some (24, 32) ∧
    (normalizeWeather (⟨some g, ps, ts⟩ :: rest)).map Weather.temperature = some 28 ∧
    (∀ (items : List RawItem) (w : Weather) (lo hi : Int),
      normalizeWeather items = some w → tempRangePair items = some (lo, hi) →
      w.temperature = Int.fdiv (lo + hi + 1) 2) := by
  refine ⟨?_, ?_, ?_⟩
  · simp [tempRangePair, hg, emptyRawRange, jsOrInt]
  · simp [normalizeWeather, hg, emptyRawRange, jsOrInt]
  · intro items w lo hi hw hp
    cases items with
    | nil => simp [normalizeWeather] at hw
    | cons item rest2 =>
      simp only [normalizeWeather, Option.some.injEq] at hw
      simp only [tempRangePair, Option.some.injEq, Prod.mk.injEq] at hp
      subst hw
      simp only []
      rw [hp.1, hp.2]

/-- C9 witness: the theorem applied to a payload whose first entry has a
forecast text but no temperature field. -/
theorem C9_witness :
    (⟨some "Fair", none, none⟩ : RawGeneral).temperature = none ∧
    tempRangePair [⟨some ⟨some "Fair", none, none⟩, [], none⟩] = some (24, 32) ∧
    (normalizeWeather [⟨some ⟨some "Fair", none, none⟩, [], none⟩]).map
      Weather.temperature = some 28 :=
  ⟨rfl, (C9_temperature_defaults ⟨some "Fair", none, none⟩ [] none [] rfl).1,
    (C9_temperature_defaults ⟨some "Fair", none, none⟩ [] none [] rfl).2.1⟩

/-- C10: the `|| default` fallbacks trigger on any falsy value, and each
field independently: a reported temperature low of `0` is replaced by 24,
and a reported humidity low of `0` is replaced by 60, regardless of what
the other range reports. -/
theorem C10_falsy_zero (g : RawGeneral) (t h : RawRange) (ps : List RawPeriod)
    (ts : Option String) (rest : List RawItem) :
    (g.temperature = some t → t.low = some 0 →
      tempRangePair (⟨some g, ps, ts⟩ :: rest) = some (24, jsOrInt t.high 32)) ∧
    (g.relative_humidity = some h → h.low = some 0 →
      humRangePair (⟨some g, ps, ts⟩ :: rest) = some (60, jsOrInt h.high 95)) := by
  constructor
  · intro ht htl
    simp [tempRangePair, ht, htl, jsOrInt]
  · intro hh hhl
    simp [humRangePair, hh, hhl, jsOrInt]

/-- C10 witness: two single-zero payloads.  One reports temperature low 0
(high 30) with an ordinary humidity range (65, 92): its temperature low
becomes 24 while the humidity passes through.  The other reports humidity
low 0 (high 88) with an ordinary temperature range (26, 31): its humidity
low becomes 60 while the temperature passes through. -/
theorem C10_witness :
    (⟨some "Cloudy", some ⟨some 0, some 30⟩, some ⟨some 65, some 92⟩⟩ : RawGeneral).temperature
        = some ⟨some 0, some 30⟩ ∧
    (⟨some 0, some 30⟩ : RawRange).low = some 0 ∧
    tempRangePair [⟨some ⟨some "Cloudy", some ⟨some 0, some 30⟩, some ⟨some 65, some 92⟩⟩, [], none⟩]
        = some (24, 30) ∧
    humRangePair [⟨some ⟨some "Cloudy", some ⟨some 0, some 30⟩, some ⟨some 65, some 92⟩⟩, [], none⟩]
        = some (65, 92) ∧
    (⟨some "Cloudy", some ⟨some 26, some 31⟩, some ⟨some 0, some 88⟩⟩ : RawGeneral).relative_humidity
        = some ⟨some 0, some 88⟩ ∧
    (⟨some 0, some 88⟩ : RawRange).low = some 0 ∧
    humRangePair [⟨some ⟨some "Cloudy", some ⟨some 26, some 31⟩, some ⟨some 0, some 88⟩⟩, [], none⟩]
        = some (60, 88) ∧
    tempRangePair [⟨some ⟨some "Cloudy", some ⟨some 26, some 31⟩, some ⟨some 0, some 88⟩⟩, [], none⟩]
        = some (26, 31) := by
  refine ⟨rfl, rfl, ?_, by decide, rfl, rfl, ?_, by decide⟩
  · have h := (C10_falsy_zero ⟨some "Cloudy", some ⟨some 0, some 30⟩, some ⟨some 65, some 92⟩⟩
      ⟨some 0, some 30⟩ ⟨some 65, some 92⟩ [] none []).1 rfl rfl
    simpa [jsOrInt] using h
  · have h := (C10_falsy_zero ⟨some "Cloudy", some ⟨some 26, some 31⟩, some ⟨some 0, some 88⟩⟩
      ⟨some 26, some 31⟩ ⟨some 0, some 88⟩ [] none []).2 rfl rfl
    simpa [jsOrInt] using h

theorem find?_id_of_mem_nodup (l : List Event) (e : Event) (i : Int)
    (hnd : (l.map Event.id).Nodup) (he : e ∈ l) (hid : e.id = i) :
    l.find? (fun x => x.id == i) = some e := by
  induction l with
  | nil => cases he
  | cons a t ih =>
    rw [List.map_cons, List.nodup_cons] at hnd
    rcases List.mem_cons.mp he with rfl | het
    · exact List.find?_cons_of_pos _ (by simp [hid])
    · have hne : (a.id == i) = false := by
        simp only [beq_eq_false_iff_ne, ne_eq]
        intro hai
        apply hnd.1
        rw [hai, ← hid]
        exact List.mem_map_of_mem Event.id het
      rw [List.find?_cons_of_neg _ (by simp [hne])]
      exact ih hnd.2 het

theorem incFirst_find? (l : List Event) (e : Event) (i : Int)
    (hnd : (l.map Event.id).Nodup) (he : e ∈ l) (hid : e.id = i) :
    (incFirst l i).find? (fun x => x.id == i) =
      some { e with participants := e.participants + 1 } := by
  induction l with
  | nil => cases he
  | cons a t ih =>
    rw [List.map_cons, List.nodup_cons] at hnd
    rcases List.mem_cons.mp he with rfl | het
    · simp only [incFirst]
      rw [if_pos (by simp [hid])]
      exact List.find?_cons_of_pos _ (by simp [hid])
    · have hne : (a.id == i) = false := by
        simp only [beq_eq_false_iff_ne, ne_eq]
        intro hai
        apply hnd.1
        rw [hai, ← hid]
        exact List.mem_map_of_mem Event.id het
      simp only [incFirst]
      rw [if_neg (by simp [hne])]
      rw [List.find?_cons_of_neg _ (by simp [hne])]
      exact ih hnd.2 het

theorem incFirst_mem_other (l : List Event) (i : Int) :
    ∀ x ∈ l, x.id ≠ i → x ∈ incFirst l i := by
  induction l with
  | nil => intro x hx; cases hx
  | cons a t ih =>
    intro x hx hxi
    rcases List.mem_cons.mp hx with rfl | hxt
    · simp only [incFirst]
      rw [if_neg (by simp [hxi])]
      exact List.mem_cons_self _ _
    · simp only [incFirst]
      by_cases hai : (a.id == i) = true
      · rw [if_pos hai]
        exact List.mem_cons_of_mem _ hxt
      · rw [if_neg hai]
        exact List.mem_cons_of_mem _ (ih x hxt hxi)

/-- C2 counterexample: pressing "load more" twice re-appends the same
mock page, so the catalog `[1, 2, 3, 4, 5, 4, 5]` has duplicate ids. -/
theorem C2_counterexample :
    ¬ ((loadMoreEvents (loadMoreEvents (loadEvents initState))).events.map
        Event.id).Nodup := by
  decide

/-- C2 (amended): event ids are unique after the initial load followed by
at most one load-more; `loadMoreEvents` appends the same fixed page (ids
4 and 5) on every call, so a second load-more introduces duplicates. -/
theorem C2_amended (s : AppState) :
    ((loadEvents s).events.map Event.id) = [1, 2, 3] ∧
    ((loadMoreEvents (loadEvents s)).events.map Event.id) = [1, 2, 3, 4, 5] ∧
    ((loadMoreEvents (loadEvents s)).events.map Event.id).Nodup := by
  refine ⟨rfl, rfl, ?_⟩
  have h : ((loadMoreEvents (loadEvents s)).events.map Event.id) = [1, 2, 3, 4, 5] := rfl
  rw [h]
  decide

/-- C5: joining an id absent from the catalog takes the early-return
path (`if (!event) return` — the silent no-op the spec's error taxonomy
names `NotFoundError`): the result is `none` and the state, events,
participant counts and filter included, is returned unchanged. -/
theorem C5_join_absent (s : AppState) (i : Int)
    (habs : ∀ e ∈ s.events, e.id ≠ i) :
    joinEvent s i = (s, none) := by
  have hfind : s.events.find? (fun e => e.id == i) = none := by
    rw [List.find?_eq_none]
    intro e he
    simp [habs e he]
  simp [joinEvent, hfind]

/-- C5 witness: joining id 99 on the freshly loaded catalog (ids 1-3). -/
theorem C5_witness :
    (∀ e ∈ (loadEvents initState).events, e.id ≠ 99) ∧
    joinEvent (loadEvents initState) 99 = (loadEvents initState, none) :=
  ⟨by decide, C5_join_absent (loadEvents initState) 99 (by decide)⟩

/-- C6: `filterEvents "all"` returns every stored event in insertion
order for any prior state; for any other tag it sets the active filter to
the tag, leaves the stored events untouched, and returns exactly the
events whose category equals the tag, as a stable sublist of the stored
order. -/
theorem C6_filter (s : AppState) (tag : String) (hne : tag ≠ "all") :
    (filterEvents s "all").2 = s.events ∧
    (filterEvents s "all").1.activeFilter = "all" ∧
    (filterEvents s "all").1.events = s.events ∧
    (filterEvents s tag).1.activeFilter = tag ∧
    (filterEvents s tag).1.events = s.events ∧
    (filterEvents s tag).2 = s.events.filter (fun e => e.category == tag) ∧
    List.Sublist (filterEvents s tag).2 s.events ∧
    (∀ x ∈ (filterEvents s tag).2, x.category = tag) ∧
    (∀ x ∈ s.events, x.category = tag → x ∈ (filterEvents s tag).2) := by
  refine ⟨by simp [filterEvents], rfl, rfl, rfl, rfl, by simp [filterEvents, hne], ?_, ?_, ?_⟩
  · simp only [filterEvents, if_pos hne]
    exact List.filter_sublist _
  · intro x hx
    simp only [filterEvents, if_pos hne, List.mem_filter, beq_iff_eq] at hx
    exact hx.2
  · intro x hx hcat
    simp only [filterEvents, if_pos hne, List.mem_filter, beq_iff_eq]
    exact ⟨hx, hcat⟩

/-- C6 witness: filtering the freshly loaded catalog by "today" and by
"all". -/
theorem C6_witness :
    ("today" ≠ "all") ∧
    (filterEvents (loadEvents initState) "all").2 = (loadEvents initState).events ∧
    (filterEvents (loadEvents initState) "today").1.activeFilter = "today" ∧
    (filterEvents (loadEvents initState) "today").2 =
      (loadEvents initState).events.filter (fun e => e.category == "today") :=
  ⟨by decide,
    (C6_filter (loadEvents initState) "today" (by decide)).1,
    (C6_filter (loadEvents initState) "today" (by decide)).2.2.2.1,
    (C6_filter (loadEvents initState) "today" (by decide)).2.2.2.2.2.1⟩

/-- C7: for an id present in a catalog with session-unique ids, one join
increments that event's `participants` by exactly 1, leaves the filter
and every other event unchanged, and a second join on the same id yields
`participants + 2` — join is not idempotent in result. -/
theorem C7_join_increments (s : AppState) (e : Event) (i : Int)
    (hnd : (s.events.map Event.id).Nodup) (he : e ∈ s.events) (hid : e.id = i) :
    (joinEvent s i).2 = some { e with participants := e.participants + 1 } ∧
    (joinEvent s i).1.activeFilter = s.activeFilter ∧
    (joinEvent s i).1.events.find? (fun x => x.id == i) =
      some { e with participants := e.participants + 1 } ∧
    (∀ x ∈ s.events, x.id ≠ i → x ∈ (joinEvent s i).1.events) ∧
    (joinEvent (joinEvent s i).1 i).2 =
      some { e with participants := e.participants + 2 } := by
  have hfind := find?_id_of_mem_nodup s.events e i hnd he hid
  have hinc := incFirst_find? s.events e i hnd he hid
  have h1 : (joinEvent s i).1.events = incFirst s.events i := by
    simp [joinEvent, hfind]
  have hfind2 : (joinEvent s i).1.events.find? (fun x => x.id == i) =
      some { e with participants := e.participants + 1 } := by
    rw [h1]; exact hinc
  refine ⟨?_, ?_, hfind2, ?_, ?_⟩
  · simp [joinEvent, hfind]
  · simp [joinEvent, hfind]
  · intro x hx hxi
    rw [h1]
    exact incFirst_mem_other s.events i x hx hxi
  · have hj1 : joinEvent s i =
        ({ events := incFirst s.events i, activeFilter := s.activeFilter },
          some { e with participants := e.participants + 1 }) := by
      simp [joinEvent, hfind]
    have hj2 : joinEvent
        ({ events := incFirst s.events i, activeFilter := s.activeFilter } : AppState) i =
        ({ events := incFirst (incFirst s.events i) i, activeFilter := s.activeFilter },
          some { e with participants := e.participants + 1 + 1 }) := by
      simp [joinEvent, hinc]
    calc (joinEvent (joinEvent s i).1 i).2
        = (joinEvent
            ({ events := incFirst s.events i, activeFilter := s.activeFilter } : AppState) i).2 := by
          rw [hj1]
      _ = some { e with participants := e.participants + 1 + 1 } := by rw [hj2]
      _ = some { e with participants := e.participants + 2 } := rfl

/-- C7 witness: two consecutive joins on event 1 of the freshly loaded
catalog (18 participants) yield 19 then 20. -/
theorem C7_witness :
    ((loadEvents initState).events.map Event.id).Nodup ∧
    pasirRis ∈ (loadEvents initState).events ∧
    pasirRis.id = 1 ∧
    (joinEvent (loadEvents initState) 1).2 =
      some { pasirRis with participants := pasirRis.participants + 1 } ∧
    (joinEvent (joinEvent (loadEvents initState) 1).1 1).2 =
      some { pasirRis with participants := pasirRis.participants + 2 } :=
  ⟨by decide, by decide, by decide,
    (C7_join_increments (loadEvents initState) pasirRis 1 (by decide) (by decide)
      (by decide)).1,
    (C7_join_increments (loadEvents initState) pasirRis 1 (by decide) (by decide)
      (by decide)).2.2.2.2⟩

/-- C8: append adds the new events at the end preserving both relative
orders, leaves the filter untouched, and the view recomputed by
`getFilteredEvents` after the append splits as old view plus the matching
part of the new page — in particular an appended event whose category
does not match a non-"all" filter is never in the recomputed view. -/
theorem C8_append (s : AppState) (more : List Event) (hf : s.activeFilter ≠ "all") :
    (appendEvents s more).events = s.events ++ more ∧
    (appendEvents s more).activeFilter = s.activeFilter ∧
    (loadMoreEvents s).events = s.events ++ newEvents ∧
    getFilteredEvents (appendEvents s more) =
      getFilteredEvents s ++ more.filter (fun e => e.category == s.activeFilter) ∧
    (∀ x ∈ more, x.category ≠ s.activeFilter →
      x ∉ getFilteredEvents (appendEvents s more)) := by
  refine ⟨rfl, rfl, rfl, ?_, ?_⟩
  · simp [getFilteredEvents, appendEvents, hf, List.filter_append]
  · intro x hx hxc hmem
    simp only [getFilteredEvents, appendEvents, if_neg hf, List.mem_filter,
      beq_iff_eq] at hmem
    exact hxc hmem.2

/-- The catalog state after loading the mock events and selecting the
"today" filter. -/
def todayState : AppState := { events := mockEvents, activeFilter := "today" }

/-- C8 witness: appending the mock page under the "today" filter; the
appended "weekend" event (id 4) is not in the recomputed view. -/
theorem C8_witness :
    (todayState.activeFilter ≠ "all") ∧
    getFilteredEvents (appendEvents todayState newEvents) =
      getFilteredEvents todayState ++
        newEvents.filter (fun e => e.category == todayState.activeFilter) ∧
    marinaBay ∈ newEvents ∧
    marinaBay.category ≠ todayState.activeFilter ∧
    marinaBay ∉ getFilteredEvents (appendEvents todayState newEvents) :=
  ⟨by decide,
    (C8_append todayState newEvents (by decide)).2.2.2.1,
    by decide, by decide,
    (C8_append todayState newEvents (by decide)).2.2.2.2 marinaBay (by decide) (by decide)⟩

end ShoreSquad
